import Mathlib

/- Verification of the cross-lingual reverse-dictionary data loader
   (`data_loader.py`): dataset construction (`XLingualDataset.__init__`),
   per-item retrieval (`__getitem__`, `__len__`), the tokenizer
   truncation/padding policy (`XLingualLoader.preprocess_tokens`,
   `convert_dict_2_features`), and the two batch collators
   (`get_train_collate`, `get_eval_collate`). -/

/-- Embedding vectors returned by the per-language vector index.  The
pipeline only moves these vectors around and never computes on their
entries, so entries are carried as integers. -/
abbrev Vec := List Int

/-- One raw record of the json dataset: the four string fields consulted by
the loader. -/
structure RawRecord where
  Source_text : String
  Source_ID : String
  Target_ID : String
  Target_keyword : String
deriving DecidableEq

/-- The initial language map of `XLingualDataset.__init__`:
`{'HI': 'hi', 'BE': 'bn', 'GU': 'gu', 'OD': 'or', 'PU': 'pa', 'EN': 'en', 'MA': 'mr'}`,
which the very next line overwrites. -/
def lang_map0 : List (String × String) :=
  [("HI", "hi"), ("BE", "bn"), ("GU", "gu"), ("OD", "or"), ("PU", "pa"),
   ("EN", "en"), ("MA", "mr")]

/-- `self.lang_map = {lang: lang for lang in self.lang_map}`: the map is
rebuilt as the identity on its own keys. -/
def lang_map : List (String × String) :=
  lang_map0.map (fun p => (p.1, p.1))

/-- The keys of `lang_map` in Python dict insertion order, as iterated by
`for lang in self.lang_map.keys()`. -/
def supportedLangs : List String := lang_map.map Prod.fst

/-- `self.language_ids = {'HI': 0, 'BE': 1, 'GU': 2, 'OD': 3, 'PU': 4, 'EN': 5, 'MA': 6}`. -/
def language_ids : List (String × Nat) :=
  [("HI", 0), ("BE", 1), ("GU", 2), ("OD", 3), ("PU", 4), ("EN", 5), ("MA", 6)]

/-- `word2idx = {line.strip(): i for i, line in enumerate(f)}` read from a
vocabulary file whose lines are given already stripped: the id of a word is
its line number.  A Python dict comprehension lets a later duplicate line
overwrite an earlier one, hence the reverse before the association lookup. -/
def word2idx (lines : List String) (w : String) : Option Nat :=
  ((lines.enum.map (fun p => (p.2, p.1))).reverse).lookup w

/-- One pass of the `for d in self.dataset` loop of
`XLingualDataset.__init__` for a fixed language `lang`: a record whose
`Target_ID` maps to `lang` contributes
`index.reconstruct(word2idx[d["Target_keyword"]])`; the `KeyError` raised
by `word2idx[...]` is caught (the record is skipped after a print), while a
`KeyError` from `self.lang_map[d["Target_ID"]]` is not caught. -/
def scanRecords (recon : Nat → Vec) (lines : List String) (lang : String) :
    List RawRecord → Except String (List Vec)
  | [] => Except.ok []
  | d :: ds =>
    match List.lookup d.Target_ID lang_map with
    | none => Except.error ("KeyError: " ++ d.Target_ID)
    | some tid =>
      if tid = lang then
        match word2idx lines d.Target_keyword with
        | some i => (scanRecords recon lines lang ds).map (fun vs => recon i :: vs)
        | none => scanRecords recon lines lang ds
      else scanRecords recon lines lang ds

/-- One iteration of the `for lang in self.lang_map.keys()` loop: open
`<lang>.vocab`, read the faiss index from `<lang>.index`, then scan all
records.  `readVocab` and `readIndex` model the filesystem, keyed by
filename; a missing file is a construction-time error. -/
def scanLang (readVocab : String → Option (List String))
    (readIndex : String → Option (Nat → Vec))
    (dataset : List RawRecord) (lang : String) : Except String (List Vec) :=
  match readVocab (lang ++ ".vocab") with
  | none => Except.error ("FileNotFoundError: " ++ lang ++ ".vocab")
  | some lines =>
    match readIndex (lang ++ ".index") with
    | none => Except.error ("FileNotFoundError: " ++ lang ++ ".index")
    | some recon => scanRecords recon lines lang dataset

/-- The target-building loop of `XLingualDataset.__init__` over a given
list of languages, accumulating each language's scan results in order. -/
def buildTargetsAux (readVocab : String → Option (List String))
    (readIndex : String → Option (Nat → Vec))
    (dataset : List RawRecord) : List String → Except String (List Vec)
  | [] => Except.ok []
  | l :: ls =>
    match scanLang readVocab readIndex dataset l with
    | Except.error e => Except.error e
    | Except.ok vs =>
      (buildTargetsAux readVocab readIndex dataset ls).map (fun rest => vs ++ rest)

/-- `self.targets` as built by `XLingualDataset.__init__`. -/
def buildTargets (readVocab : String → Option (List String))
    (readIndex : String → Option (Nat → Vec))
    (dataset : List RawRecord) : Except String (List Vec) :=
  buildTargetsAux readVocab readIndex dataset supportedLangs

/-- The dictionary returned by `XLingualDataset.__getitem__`.  The
tokenized phrase is produced by the external HuggingFace tokenizer call,
abstracted as an arbitrary type `φ`. -/
structure Item (φ : Type) where
  phrase : φ
  target : Vec
  source_lang : String
  target_lang : String
  target_word : String
  label : List Int
deriving DecidableEq

/-- `XLingualDataset.__getitem__`: tokenize `self.dataset[idx]`, index
`self.targets[idx]`, then look up both language tags in `self.lang_map`.
Each list indexing raises `IndexError` when out of range and each dict
lookup raises `KeyError` when the key is absent; `label` is
`torch.ones(1)`. -/
def getitem {φ : Type} (tok : String → φ) (dataset : List RawRecord)
    (targets : List Vec) (idx : Nat) : Except String (Item φ) :=
  match dataset[idx]? with
  | none => Except.error "IndexError: list index out of range"
  | some d =>
    let phrase := tok d.Source_text
    match targets[idx]? with
    | none => Except.error "IndexError: list index out of range"
    | some t =>
      match List.lookup d.Source_ID lang_map with
      | none => Except.error ("KeyError: " ++ d.Source_ID)
      | some sl =>
        match List.lookup d.Target_ID lang_map with
        | none => Except.error ("KeyError: " ++ d.Target_ID)
        | some tl =>
          Except.ok { phrase := phrase, target := t, source_lang := sl,
                      target_lang := tl, target_word := d.Target_keyword,
                      label := [1] }

/-- `XLingualDataset.__len__`: the length of the record list. -/
def datasetLen (dataset : List RawRecord) : Nat := dataset.length

/-- Interface of the pinned external subword tokenizer (a black box per the
spec): the special tokens, token-to-id conversion, and the number of
special tokens added around a single sequence
(`tokenizer.num_special_tokens_to_add()`, which is 2 for the pinned model:
one start and one end boundary marker). -/
structure TokenizerModel where
  cls_token : String
  sep_token : String
  pad_token : String
  convert_token_to_id : String → Nat
  num_special_tokens_to_add : Nat

/-- `self.max_seq_length = 128`. -/
def max_seq_length : Nat := 128

/-- The three fixed-length arrays produced for one text span. -/
structure TokFeature where
  input_ids : List Nat
  token_type_ids : List Nat
  attention_mask : List Nat
deriving DecidableEq

/-- `XLingualLoader.preprocess_tokens`: truncate the raw token sequence to
`max_seq_length - num_special_tokens_to_add`, wrap it in `[CLS]`/`[SEP]`,
build all-ones attention mask and all-zeros type ids over the real tokens,
right-pad all three arrays to `max_seq_length`, and convert tokens to ids. -/
def preprocess_tokens (tk : TokenizerModel) (input_tokens : List String) :
    TokFeature :=
  let s := tk.num_special_tokens_to_add
  let tokens0 :=
    if input_tokens.length > max_seq_length - s then
      input_tokens.take (max_seq_length - s)
    else input_tokens
  let tokens1 := [tk.cls_token] ++ tokens0 ++ [tk.sep_token]
  let token_type_ids := List.replicate tokens1.length 0
  let attention_mask := List.replicate tokens1.length 1
  let len_before_padd := tokens1.length
  let tokens2 := tokens1 ++ List.replicate (max_seq_length - len_before_padd) tk.pad_token
  { input_ids := tokens2.map tk.convert_token_to_id,
    token_type_ids := token_type_ids ++ List.replicate (max_seq_length - len_before_padd) 0,
    attention_mask := attention_mask ++ List.replicate (max_seq_length - len_before_padd) 0 }

/-- The feature dictionary built by `XLingualLoader.convert_dict_2_features`. -/
structure Features where
  src_id : Nat
  target_id : Nat
  phrase : TokFeature
  target : TokFeature
deriving DecidableEq

/-- `XLingualLoader.convert_dict_2_features`: tokenize both texts with the
external tokenizer (black box `tokenize`), look both language tags up in
`self.language_ids` (a `KeyError` when absent), and preprocess both token
sequences. -/
def convert_dict_2_features (tk : TokenizerModel)
    (tokenize : String → List String) (r : RawRecord) :
    Except String Features :=
  let src_tokens := tokenize r.Source_text
  let target_tokens := tokenize r.Target_keyword
  match List.lookup r.Source_ID language_ids with
  | none => Except.error ("KeyError: " ++ r.Source_ID)
  | some sid =>
    match List.lookup r.Target_ID language_ids with
    | none => Except.error ("KeyError: " ++ r.Target_ID)
    | some tid =>
      Except.ok { src_id := sid, target_id := tid,
                  phrase := preprocess_tokens tk src_tokens,
                  target := preprocess_tokens tk target_tokens }

/-- One element of the list handed to a collate function: the fields of a
training item, each tokenized-phrase field being a `[1, L]` tensor (a list
of rows) as returned by the HuggingFace tokenizer with
`return_tensors="pt"`. -/
structure TrainItem where
  phrase_input_ids : List (List Nat)
  phrase_attention_mask : List (List Nat)
  phrase_token_type_ids : List (List Nat)
  target : Vec
  source_lang : String
  target_lang : String
  target_word : String
  label : List Int
deriving DecidableEq

/-- `torch.cat` along the leading dimension: a tensor is a list of entries
of its trailing shape, and concatenation joins the lists. -/
def torchCat {α : Type} (ts : List (List α)) : List α := ts.flatten

/-- `tensor.unsqueeze(0)`: add a leading dimension of size one. -/
def unsqueeze0 {α : Type} (v : α) : List α := [v]

/-- The batch structure produced by the training collate closure. -/
structure TrainBatch where
  input_ids : List (List Nat)
  attention_mask : List (List Nat)
  token_type_ids : List (List Nat)
  target : List Vec
  source_lang : List String
  target_lang : List String
  target_words : List String
  label : List (List Int)
deriving DecidableEq

/-- The collate closure returned by `get_train_collate`. -/
def train_collate (batch : List TrainItem) : TrainBatch :=
  { input_ids := torchCat (batch.map (fun b => b.phrase_input_ids)),
    attention_mask := torchCat (batch.map (fun b => b.phrase_attention_mask)),
    token_type_ids := torchCat (batch.map (fun b => b.phrase_token_type_ids)),
    target := torchCat (batch.map (fun b => unsqueeze0 b.target)),
    source_lang := batch.map (fun b => b.source_lang),
    target_lang := batch.map (fun b => b.target_lang),
    target_words := batch.map (fun b => b.target_word),
    label := torchCat (batch.map (fun b => unsqueeze0 b.label)) }

/-- The batch structure produced by the evaluation collate closure: the
training fields plus the two captured configuration values. -/
structure EvalBatch where
  input_ids : List (List Nat)
  attention_mask : List (List Nat)
  token_type_ids : List (List Nat)
  target : List Vec
  source_lang : List String
  target_lang : List String
  target_words : List String
  label : List (List Int)
  index_path : String
  k : Nat
deriving DecidableEq

/-- The collate closure returned by `get_eval_collate(index_path, k)`. -/
def eval_collate (index_path : String) (k : Nat) (batch : List TrainItem) :
    EvalBatch :=
  { input_ids := torchCat (batch.map (fun b => b.phrase_input_ids)),
    attention_mask := torchCat (batch.map (fun b => b.phrase_attention_mask)),
    token_type_ids := torchCat (batch.map (fun b => b.phrase_token_type_ids)),
    target := torchCat (batch.map (fun b => unsqueeze0 b.target)),
    source_lang := batch.map (fun b => b.source_lang),
    target_lang := batch.map (fun b => b.target_lang),
    target_words := batch.map (fun b => b.target_word),
    label := torchCat (batch.map (fun b => unsqueeze0 b.label)),
    index_path := index_path,
    k := k }

/-- Whether an `Except` outcome is an error (a raised exception). -/
def isErr {ε α : Type} : Except ε α → Bool
  | Except.error _ => true
  | Except.ok _ => false

/-- Record `d`'s target keyword is absent from its own language's
vocabulary file: the situation whose `KeyError` the constructor catches,
prints, and skips. -/
def unresolvedKw (readVocab : String → Option (List String)) (d : RawRecord) : Bool :=
  match readVocab (d.Target_ID ++ ".vocab") with
  | some lines => (word2idx lines d.Target_keyword).isNone
  | none => false

/-- A record is counted into `self.targets` during the scan of language
`l`: its `Target_ID` maps to `l` and its keyword resolves in the `l.vocab`
file. -/
def hitB (readVocab : String → Option (List String)) (l : String)
    (d : RawRecord) : Bool :=
  match readVocab (l ++ ".vocab") with
  | some lines =>
      decide (List.lookup d.Target_ID lang_map = some l) &&
        (word2idx lines d.Target_keyword).isSome
  | none => false

/-- A concrete tokenizer instance used to exercise the theorems: the pinned
model adds exactly two special tokens around a single sequence. -/
def tkW : TokenizerModel :=
  { cls_token := "[CLS]", sep_token := "[SEP]", pad_token := "<pad>",
    convert_token_to_id := fun _ => 0, num_special_tokens_to_add := 2 }

/-- Record 0 of the misalignment scenario: target language BE, keyword `b`. -/
def rC1a : RawRecord :=
  { Source_text := "p0", Source_ID := "HI", Target_ID := "BE", Target_keyword := "b" }

/-- Record 1 of the misalignment scenario: target language HI, keyword `a`. -/
def rC1b : RawRecord :=
  { Source_text := "p1", Source_ID := "HI", Target_ID := "HI", Target_keyword := "a" }

/-- A two-record dataset whose records' target languages interleave against
the constructor's per-language scan order (HI is scanned before BE). -/
def dsC1 : List RawRecord := [rC1a, rC1b]

/-- Vocabulary files for the misalignment scenario: every keyword resolves
in its own language's vocabulary. -/
def rvC1 : String → Option (List String) := fun f =>
  if f = "HI.vocab" then some ["a"]
  else if f = "BE.vocab" then some ["b"] else some []

/-- Vector indexes for the misalignment scenario: the HI index holds vector
`[10]`, the BE index holds vector `[20]`. -/
def riC1 : String → Option (Nat → Vec) := fun f =>
  if f = "HI.index" then some (fun _ => [10])
  else if f = "BE.index" then some (fun _ => [20]) else some (fun _ => [])

/-- Record 0 of the missing-keyword scenario: keyword `zzz` absent from the
HI vocabulary. -/
def rC2a : RawRecord :=
  { Source_text := "q0", Source_ID := "HI", Target_ID := "HI", Target_keyword := "zzz" }

/-- Record 1 of the missing-keyword scenario: keyword `a`, present. -/
def rC2b : RawRecord :=
  { Source_text := "q1", Source_ID := "HI", Target_ID := "HI", Target_keyword := "a" }

/-- A two-record dataset whose first record's keyword is unresolvable. -/
def dsC2 : List RawRecord := [rC2a, rC2b]

/-- Vocabulary files for the missing-keyword scenario. -/
def rvC2 : String → Option (List String) := fun f =>
  if f = "HI.vocab" then some ["a"] else some []

/-- Vector indexes for the missing-keyword scenario: the HI index holds
vector `[10]` at id 0 (the id of word `a`). -/
def riC2 : String → Option (Nat → Vec) := fun f =>
  if f = "HI.index" then some (fun _ => [10]) else some (fun _ => [])

/-- A concrete record with an unsupported source language tag. -/
def rC8 : RawRecord :=
  { Source_text := "s", Source_ID := "XX", Target_ID := "YY", Target_keyword := "w" }

/-- A concrete training item used to exercise the collators: `L = 3`
columns per tokenized-feature row, target dimension 2. -/
def itemW : TrainItem :=
  { phrase_input_ids := [[5, 6, 7]],
    phrase_attention_mask := [[1, 1, 0]],
    phrase_token_type_ids := [[0, 0, 0]],
    target := [3, 4],
    source_lang := "HI",
    target_lang := "EN",
    target_word := "w",
    label := [1] }

/-- A concrete record for exercising the field pass-through of
`__getitem__`. -/
def rC10 : RawRecord :=
  { Source_text := "s", Source_ID := "HI", Target_ID := "EN", Target_keyword := "w" }

/-- The item `__getitem__` returns on `rC10` with target list `[[0]]`. -/
def itW : Item Unit :=
  { phrase := (), target := [0], source_lang := "HI", target_lang := "EN",
    target_word := "w", label := [1] }

/-- The truncation branch of `preprocess_tokens` in one expression: the
kept raw tokens are the first `min len 126`. -/
theorem ite_trunc_eq_take_min (tk : TokenizerModel) (ts : List String)
    (hs : tk.num_special_tokens_to_add = 2) :
    (if ts.length > max_seq_length - tk.num_special_tokens_to_add then
        ts.take (max_seq_length - tk.num_special_tokens_to_add)
      else ts) = ts.take (min ts.length 126) := by
  rw [hs]
  by_cases h : ts.length > max_seq_length - 2
  · rw [if_pos h]
    congr 1
    simp [max_seq_length] at h ⊢
    omega
  · rw [if_neg h]
    simp [max_seq_length] at h
    have hm2 : min ts.length 126 = ts.length := by omega
    rw [hm2, List.take_length]

/-- Closed form of `preprocess_tokens` for a tokenizer that adds exactly two
special tokens: the kept raw tokens are the first `min len 126`, wrapped in
the boundary markers and right-padded to 128. -/
theorem preprocess_tokens_closed_form (tk : TokenizerModel) (ts : List String)
    (hs : tk.num_special_tokens_to_add = 2) :
    preprocess_tokens tk ts =
      { input_ids := (([tk.cls_token] ++ ts.take (min ts.length 126) ++ [tk.sep_token]) ++
          List.replicate (126 - min ts.length 126) tk.pad_token).map tk.convert_token_to_id,
        token_type_ids := List.replicate 128 0,
        attention_mask := List.replicate (min ts.length 126 + 2) 1 ++
          List.replicate (126 - min ts.length 126) 0 } := by
  simp only [preprocess_tokens]
  rw [ite_trunc_eq_take_min tk ts hs]
  simp only [TokFeature.mk.injEq]
  refine ⟨?_, ?_, ?_⟩ <;>
    simp only [List.length_append, List.length_cons, List.length_nil, List.length_take,
      List.singleton_append, max_seq_length]
  · congr 3 <;> omega
  · rw [← List.replicate_add]
    congr 1
    omega
  · congr 2 <;> omega

/-- Claim C3: for every raw token sequence, the three arrays produced by
`XLingualLoader.preprocess_tokens` each have length exactly
`max_seq_length` (128), whether the raw token count is 0, below 126, or
above 126. -/
theorem preprocess_tokens_length_exact (tk : TokenizerModel) (ts : List String)
    (hs : tk.num_special_tokens_to_add = 2) :
    (preprocess_tokens tk ts).input_ids.length = max_seq_length ∧
    (preprocess_tokens tk ts).token_type_ids.length = max_seq_length ∧
    (preprocess_tokens tk ts).attention_mask.length = max_seq_length := by
  rw [preprocess_tokens_closed_form tk ts hs]
  refine ⟨?_, ?_, ?_⟩ <;>
    simp only [List.length_map, List.length_append, List.length_cons, List.length_nil,
      List.length_take, List.length_replicate, List.singleton_append, max_seq_length] <;>
    omega

/-- Exercises claim C3's theorem on a concrete one-token input. -/
theorem preprocess_tokens_length_exact_witness :
    (preprocess_tokens tkW ["x"]).input_ids.length = max_seq_length ∧
    (preprocess_tokens tkW ["x"]).token_type_ids.length = max_seq_length ∧
    (preprocess_tokens tkW ["x"]).attention_mask.length = max_seq_length :=
  preprocess_tokens_length_exact tkW ["x"] rfl

/-- Claim C4: when the raw token count exceeds `max_seq_length - 2`, the
padded output of `preprocess_tokens` is exactly the first 126 raw tokens
preceded by the start marker and followed by the end marker, never the
untruncated raw sequence. -/
theorem preprocess_tokens_truncation (tk : TokenizerModel) (ts : List String)
    (hs : tk.num_special_tokens_to_add = 2)
    (hlong : ts.length > max_seq_length - 2) :
    (preprocess_tokens tk ts).input_ids =
      ([tk.cls_token] ++ ts.take (max_seq_length - 2) ++ [tk.sep_token]).map
        tk.convert_token_to_id := by
  rw [preprocess_tokens_closed_form tk ts hs]
  have h126 : ts.length > 126 := by simp [max_seq_length] at hlong; omega
  have hmin : min ts.length 126 = 126 := by omega
  simp [hmin, max_seq_length]

/-- Exercises claim C4's theorem on a concrete 127-token input. -/
theorem preprocess_tokens_truncation_witness :
    (List.replicate 127 "t").length > max_seq_length - 2 ∧
    (preprocess_tokens tkW (List.replicate 127 "t")).input_ids =
      ([tkW.cls_token] ++ (List.replicate 127 "t").take (max_seq_length - 2) ++
        [tkW.sep_token]).map tkW.convert_token_to_id :=
  ⟨by simp [max_seq_length],
    preprocess_tokens_truncation tkW (List.replicate 127 "t") rfl (by simp [max_seq_length])⟩

/-- Claim C5: the attention mask produced by `preprocess_tokens` is exactly
`min(len, 126) + 2` ones followed only by zeros, and the token type ids
array is all zeros. -/
theorem preprocess_tokens_mask_and_type (tk : TokenizerModel) (ts : List String)
    (hs : tk.num_special_tokens_to_add = 2) :
    (preprocess_tokens tk ts).attention_mask =
      List.replicate (min ts.length (max_seq_length - 2) + 2) 1 ++
        List.replicate (max_seq_length - (min ts.length (max_seq_length - 2) + 2)) 0 ∧
    (preprocess_tokens tk ts).token_type_ids = List.replicate max_seq_length 0 := by
  rw [preprocess_tokens_closed_form tk ts hs]
  constructor
  · have h2 : max_seq_length - 2 = 126 := by simp [max_seq_length]
    rw [h2]
    show List.replicate (min ts.length 126 + 2) 1 ++
        List.replicate (126 - min ts.length 126) 0 = _
    congr 2
    simp [max_seq_length]
  · rfl

/-- Exercises claim C5's theorem on a concrete two-token input. -/
theorem preprocess_tokens_mask_and_type_witness :
    (preprocess_tokens tkW ["x", "y"]).attention_mask =
      List.replicate (min (["x", "y"] : List String).length (max_seq_length - 2) + 2) 1 ++
        List.replicate
          (max_seq_length - (min (["x", "y"] : List String).length (max_seq_length - 2) + 2)) 0 ∧
    (preprocess_tokens tkW ["x", "y"]).token_type_ids = List.replicate max_seq_length 0 :=
  preprocess_tokens_mask_and_type tkW ["x", "y"] rfl

/-- Flattening a list of singletons is the list of their contents. -/
theorem flatten_map_singleton {α β : Type} (l : List α) (f : α → β) :
    (l.map (fun a => [f a])).flatten = l.map f := by
  induction l with
  | nil => rfl
  | cons a l ih => simp [ih]

/-- The sum of a map whose every value is 1 is the list length. -/
theorem sum_map_one {α : Type} (l : List α) (f : α → Nat)
    (h : ∀ x ∈ l, f x = 1) : (l.map f).sum = l.length := by
  induction l with
  | nil => rfl
  | cons a l ih =>
    simp only [List.map_cons, List.sum_cons, List.length_cons,
      h a (List.mem_cons_self a l), ih (fun x hx => h x (List.mem_cons_of_mem a hx))]
    omega

/-- Flattening the map of a one-row-tensor-valued function yields one row
per element. -/
theorem length_flatten_map_rows {α β : Type} (l : List α) (f : α → List β)
    (h : ∀ x ∈ l, (f x).length = 1) : (l.map f).flatten.length = l.length := by
  rw [List.length_flatten, List.map_map]
  exact sum_map_one l (List.length ∘ f) h

/-- Claim C6: collating `N` uniform training items stacks the three
tokenized-phrase fields into `[N, L]`, the targets into `[N, D]`, and
carries the language tags and target words through as length-`N` lists in
the input order. -/
theorem train_collate_shapes (batch : List TrainItem) (L D : Nat)
    (hne : batch ≠ [])
    (h1 : ∀ b ∈ batch, b.phrase_input_ids.length = 1 ∧
      ∀ r ∈ b.phrase_input_ids, r.length = L)
    (h2 : ∀ b ∈ batch, b.phrase_attention_mask.length = 1 ∧
      ∀ r ∈ b.phrase_attention_mask, r.length = L)
    (h3 : ∀ b ∈ batch, b.phrase_token_type_ids.length = 1 ∧
      ∀ r ∈ b.phrase_token_type_ids, r.length = L)
    (h4 : ∀ b ∈ batch, b.target.length = D) :
    (train_collate batch).input_ids.length = batch.length ∧
    (∀ r ∈ (train_collate batch).input_ids, r.length = L) ∧
    (train_collate batch).attention_mask.length = batch.length ∧
    (∀ r ∈ (train_collate batch).attention_mask, r.length = L) ∧
    (train_collate batch).token_type_ids.length = batch.length ∧
    (∀ r ∈ (train_collate batch).token_type_ids, r.length = L) ∧
    (train_collate batch).target.length = batch.length ∧
    (∀ v ∈ (train_collate batch).target, v.length = D) ∧
    (train_collate batch).source_lang = batch.map (fun b => b.source_lang) ∧
    (train_collate batch).target_lang = batch.map (fun b => b.target_lang) ∧
    (train_collate batch).target_words = batch.map (fun b => b.target_word) := by
  have ht : (List.map (fun (b : TrainItem) => [b.target]) batch).flatten =
      List.map (fun b => b.target) batch := flatten_map_singleton batch (fun b => b.target)
  simp only [train_collate, torchCat, unsqueeze0]
  refine ⟨?_, ?_, ?_, ?_, ?_, ?_, ?_, ?_, trivial, trivial, trivial⟩
  · exact length_flatten_map_rows batch _ (fun b hb => (h1 b hb).1)
  · intro r hr
    obtain ⟨x, hx, hrx⟩ := List.mem_flatten.mp hr
    obtain ⟨b, hb, hbx⟩ := List.mem_map.mp hx
    refine (h1 b hb).2 r ?_
    rw [← hbx] at hrx
    exact hrx
  · exact length_flatten_map_rows batch _ (fun b hb => (h2 b hb).1)
  · intro r hr
    obtain ⟨x, hx, hrx⟩ := List.mem_flatten.mp hr
    obtain ⟨b, hb, hbx⟩ := List.mem_map.mp hx
    refine (h2 b hb).2 r ?_
    rw [← hbx] at hrx
    exact hrx
  · exact length_flatten_map_rows batch _ (fun b hb => (h3 b hb).1)
  · intro r hr
    obtain ⟨x, hx, hrx⟩ := List.mem_flatten.mp hr
    obtain ⟨b, hb, hbx⟩ := List.mem_map.mp hx
    refine (h3 b hb).2 r ?_
    rw [← hbx] at hrx
    exact hrx
  · rw [ht]
    exact List.length_map batch _
  · intro v hv
    rw [ht] at hv
    obtain ⟨b, hb, hbv⟩ := List.mem_map.mp hv
    rw [← hbv]
    exact h4 b hb

/-- Exercises claim C6's theorem on a concrete singleton batch with
`L = 3`, `D = 2`. -/
theorem train_collate_shapes_witness :
    (train_collate [itemW]).input_ids.length = [itemW].length ∧
    (∀ r ∈ (train_collate [itemW]).input_ids, r.length = 3) ∧
    (train_collate [itemW]).attention_mask.length = [itemW].length ∧
    (∀ r ∈ (train_collate [itemW]).attention_mask, r.length = 3) ∧
    (train_collate [itemW]).token_type_ids.length = [itemW].length ∧
    (∀ r ∈ (train_collate [itemW]).token_type_ids, r.length = 3) ∧
    (train_collate [itemW]).target.length = [itemW].length ∧
    (∀ v ∈ (train_collate [itemW]).target, v.length = 2) ∧
    (train_collate [itemW]).source_lang = [itemW].map (fun b => b.source_lang) ∧
    (train_collate [itemW]).target_lang = [itemW].map (fun b => b.target_lang) ∧
    (train_collate [itemW]).target_words = [itemW].map (fun b => b.target_word) :=
  train_collate_shapes [itemW] 3 2 (List.cons_ne_nil _ _)
    (by decide) (by decide) (by decide) (by decide)

/-- Claim C7: on every non-empty batch, the evaluation collate closure
agrees field-for-field with the training collate closure on all shared
fields and additionally carries the two captured configuration values
unchanged. -/
theorem eval_collate_refines_train_collate (p : String) (k : Nat)
    (batch : List TrainItem) (hne : batch ≠ []) :
    (eval_collate p k batch).input_ids = (train_collate batch).input_ids ∧
    (eval_collate p k batch).attention_mask = (train_collate batch).attention_mask ∧
    (eval_collate p k batch).token_type_ids = (train_collate batch).token_type_ids ∧
    (eval_collate p k batch).target = (train_collate batch).target ∧
    (eval_collate p k batch).source_lang = (train_collate batch).source_lang ∧
    (eval_collate p k batch).target_lang = (train_collate batch).target_lang ∧
    (eval_collate p k batch).target_words = (train_collate batch).target_words ∧
    (eval_collate p k batch).label = (train_collate batch).label ∧
    (eval_collate p k batch).index_path = p ∧
    (eval_collate p k batch).k = k :=
  ⟨rfl, rfl, rfl, rfl, rfl, rfl, rfl, rfl, rfl, rfl⟩

/-- Exercises claim C7's theorem on a concrete singleton batch and concrete
configuration values. -/
theorem eval_collate_refines_train_collate_witness :
    (eval_collate "models/index" 5 [itemW]).input_ids = (train_collate [itemW]).input_ids ∧
    (eval_collate "models/index" 5 [itemW]).attention_mask =
      (train_collate [itemW]).attention_mask ∧
    (eval_collate "models/index" 5 [itemW]).token_type_ids =
      (train_collate [itemW]).token_type_ids ∧
    (eval_collate "models/index" 5 [itemW]).target = (train_collate [itemW]).target ∧
    (eval_collate "models/index" 5 [itemW]).source_lang = (train_collate [itemW]).source_lang ∧
    (eval_collate "models/index" 5 [itemW]).target_lang = (train_collate [itemW]).target_lang ∧
    (eval_collate "models/index" 5 [itemW]).target_words =
      (train_collate [itemW]).target_words ∧
    (eval_collate "models/index" 5 [itemW]).label = (train_collate [itemW]).label ∧
    (eval_collate "models/index" 5 [itemW]).index_path = "models/index" ∧
    (eval_collate "models/index" 5 [itemW]).k = 5 :=
  eval_collate_refines_train_collate "models/index" 5 [itemW] (List.cons_ne_nil _ _)

/-- A successful lookup in a key-duplicating association map returns the
key itself, which is one of the original keys. -/
theorem lookup_map_dup_eq (l0 : List (String × String)) (t s : String)
    (h : List.lookup t (l0.map (fun p => (p.1, p.1))) = some s) :
    s = t ∧ t ∈ l0.map Prod.fst := by
  induction l0 with
  | nil => simp [List.lookup] at h
  | cons p l ih =>
    cases hbeq : t == p.1 with
    | true =>
      have ht : t = p.1 := eq_of_beq hbeq
      subst ht
      simp [List.lookup] at h
      exact ⟨h.symm, by simp⟩
    | false =>
      simp only [List.map_cons, List.lookup, hbeq] at h
      obtain ⟨h1, h2⟩ := ih h
      exact ⟨h1, List.mem_cons_of_mem _ h2⟩

/-- A successful association lookup's key is among the map's keys. -/
theorem lookup_mem_keys {β : Type} (al : List (String × β)) (t : String) (v : β)
    (h : List.lookup t al = some v) : t ∈ al.map Prod.fst := by
  induction al with
  | nil => simp [List.lookup] at h
  | cons p l ih =>
    cases hbeq : t == p.1 with
    | true =>
      have ht : t = p.1 := eq_of_beq hbeq
      simp [ht]
    | false =>
      simp only [List.lookup, hbeq] at h
      exact List.mem_cons_of_mem _ (ih h)

/-- A successful `lang_map` lookup returns the raw tag unchanged, and only
succeeds on supported tags. -/
theorem lookup_lang_map_eq (t s : String) (h : List.lookup t lang_map = some s) :
    s = t ∧ t ∈ supportedLangs := by
  have h2 := lookup_map_dup_eq lang_map0 t s h
  exact ⟨h2.1, h2.2⟩

/-- A tag outside the supported set fails its `language_ids` lookup. -/
theorem lookup_language_ids_eq_none (t : String) (h : t ∉ supportedLangs) :
    List.lookup t language_ids = none := by
  cases hl : List.lookup t language_ids with
  | none => rfl
  | some v => exact absurd (lookup_mem_keys language_ids t v hl) h

/-- A tag outside the supported set fails its `lang_map` lookup. -/
theorem lookup_lang_map_eq_none (t : String) (h : t ∉ supportedLangs) :
    List.lookup t lang_map = none := by
  cases hl : List.lookup t lang_map with
  | none => rfl
  | some s => exact absurd (lookup_lang_map_eq t s hl).2 h

/-- A record scan only succeeds when every record's `Target_ID` resolves
in `lang_map`. -/
theorem scanRecords_ok_lookup (recon : Nat → Vec) (lines : List String) (lang : String) :
    ∀ (ds : List RawRecord) (vs : List Vec),
      scanRecords recon lines lang ds = Except.ok vs →
      ∀ d ∈ ds, (List.lookup d.Target_ID lang_map).isSome = true := by
  intro ds
  induction ds with
  | nil =>
    intro vs h d hd
    simp at hd
  | cons d0 ds ih =>
    intro vs h d hd
    unfold scanRecords at h
    rcases List.mem_cons.mp hd with rfl | hd2
    · cases hl : List.lookup d.Target_ID lang_map with
      | none =>
        rw [hl] at h
        simp at h
      | some tid => rfl
    · split at h
      · simp at h
      · split at h
        · split at h
          · cases hrec : scanRecords recon lines lang ds with
            | error e =>
              rw [hrec] at h
              simp [Except.map] at h
            | ok vs2 => exact ih vs2 hrec d hd2
          · exact ih vs h d hd2
        · exact ih vs h d hd2

/-- A per-language scan never succeeds while the dataset holds a record
whose `Target_ID` is unresolvable. -/
theorem scanLang_not_ok (rv : String → Option (List String))
    (ri : String → Option (Nat → Vec)) (ds : List RawRecord) (r : RawRecord)
    (hr : r ∈ ds) (hnone : List.lookup r.Target_ID lang_map = none)
    (l : String) (vs : List Vec) : scanLang rv ri ds l ≠ Except.ok vs := by
  intro h
  unfold scanLang at h
  cases hv : rv (l ++ ".vocab") with
  | none =>
    rw [hv] at h
    simp at h
  | some lines =>
    rw [hv] at h
    cases hix : ri (l ++ ".index") with
    | none =>
      rw [hix] at h
      simp at h
    | some recon =>
      rw [hix] at h
      have h2 := scanRecords_ok_lookup recon lines l ds vs h r hr
      rw [hnone] at h2
      simp at h2

/-- The constructor loop over a non-empty language list errors whenever the
dataset holds a record with an unresolvable `Target_ID`. -/
theorem buildTargetsAux_cons_isErr (rv : String → Option (List String))
    (ri : String → Option (Nat → Vec)) (ds : List RawRecord) (r : RawRecord)
    (hr : r ∈ ds) (hnone : List.lookup r.Target_ID lang_map = none)
    (l : String) (ls : List String) :
    isErr (buildTargetsAux rv ri ds (l :: ls)) = true := by
  unfold buildTargetsAux
  cases hsl : scanLang rv ri ds l with
  | error e => rfl
  | ok vs => exact absurd hsl (scanLang_not_ok rv ri ds r hr hnone l vs)

/-- Claim C8: a record whose `Source_ID` or `Target_ID` lies outside the
supported language set raises a hard `KeyError` when processed: in
`convert_dict_2_features`, in `XLingualDataset.__getitem__`, and (for an
unsupported `Target_ID`) already in `XLingualDataset.__init__`; the tag is
never defaulted or coerced. -/
theorem unsupported_language_tag_errors {φ : Type} (tk : TokenizerModel)
    (tokenize : String → List String) (tok : String → φ)
    (rv : String → Option (List String)) (ri : String → Option (Nat → Vec))
    (ds : List RawRecord) (ts : List Vec) (idx : Nat) (r : RawRecord)
    (hidx : ds[idx]? = some r)
    (hS : r.Source_ID ∉ supportedLangs ∨ r.Target_ID ∉ supportedLangs) :
    isErr (convert_dict_2_features tk tokenize r) = true ∧
    isErr (getitem tok ds ts idx) = true ∧
    (r.Target_ID ∉ supportedLangs → isErr (buildTargets rv ri ds) = true) := by
  refine ⟨?_, ?_, ?_⟩
  · simp only [convert_dict_2_features]
    rcases hS with hs | ht
    · simp [lookup_language_ids_eq_none _ hs, isErr]
    · cases hl : List.lookup r.Source_ID language_ids with
      | none => rfl
      | some sid => simp [lookup_language_ids_eq_none _ ht, isErr]
  · simp only [getitem]
    rw [hidx]
    cases hts : ts[idx]? with
    | none => rfl
    | some t =>
      rcases hS with hs | ht
      · simp [lookup_lang_map_eq_none _ hs, isErr]
      · cases hsl : List.lookup r.Source_ID lang_map with
        | none => simp [hsl, isErr]
        | some sl => simp [hsl, lookup_lang_map_eq_none _ ht, isErr]
  · intro ht
    have hmem : r ∈ ds := List.getElem?_mem hidx
    have hnone : List.lookup r.Target_ID lang_map = none := lookup_lang_map_eq_none _ ht
    exact buildTargetsAux_cons_isErr rv ri ds r hmem hnone
      "HI" ["BE", "GU", "OD", "PU", "EN", "MA"]

/-- Exercises claim C8's theorem on a concrete record with both tags
outside the supported set. -/
theorem unsupported_language_tag_errors_witness :
    isErr (convert_dict_2_features tkW (fun _ => []) rC8) = true ∧
    isErr (getitem (fun _ => ()) [rC8] [] 0) = true ∧
    (rC8.Target_ID ∉ supportedLangs →
      isErr (buildTargets (fun _ => none) (fun _ => none) [rC8]) = true) :=
  unsupported_language_tag_errors tkW (fun _ => []) (fun _ => ())
    (fun _ => none) (fun _ => none) [rC8] [] 0 rC8 rfl (Or.inl (by decide))

/-- The number of vectors a successful per-language record scan appends is
the number of records that match the language and resolve. -/
theorem scanRecords_ok_length (recon : Nat → Vec) (lines : List String) (lang : String) :
    ∀ (ds : List RawRecord) (vs : List Vec),
      scanRecords recon lines lang ds = Except.ok vs →
      vs.length = (ds.filter (fun d =>
        decide (List.lookup d.Target_ID lang_map = some lang) &&
          (word2idx lines d.Target_keyword).isSome)).length := by
  intro ds
  induction ds with
  | nil =>
    intro vs h
    simp only [scanRecords] at h
    injection h with h2
    subst h2
    rfl
  | cons d0 ds ih =>
    intro vs h
    unfold scanRecords at h
    split at h
    · simp at h
    · rename_i tid heq
      by_cases htid : tid = lang
      · rw [if_pos htid] at h
        cases hw : word2idx lines d0.Target_keyword with
        | some i =>
          rw [hw] at h
          cases hrec : scanRecords recon lines lang ds with
          | error e =>
            rw [hrec] at h
            simp [Except.map] at h
          | ok vs2 =>
            rw [hrec] at h
            simp only [Except.map] at h
            injection h with h2
            subst h2
            have hlen := ih vs2 hrec
            rw [List.filter_cons_of_pos (by
              rw [heq, htid, hw]
              simp)]
            simp [hlen]
        | none =>
          rw [hw] at h
          rw [List.filter_cons_of_neg (by
            rw [heq, htid, hw]
            simp)]
          exact ih vs h
      · rw [if_neg htid] at h
        rw [List.filter_cons_of_neg (by
          rw [heq]
          simp [htid])]
        exact ih vs h

/-- The number of vectors a successful `scanLang` call appends is the
number of records hitting that language. -/
theorem scanLang_ok_length (rv : String → Option (List String))
    (ri : String → Option (Nat → Vec)) (ds : List RawRecord) (l : String)
    (vs : List Vec) (h : scanLang rv ri ds l = Except.ok vs) :
    vs.length = (ds.filter (hitB rv l)).length := by
  unfold scanLang at h
  cases hv : rv (l ++ ".vocab") with
  | none =>
    rw [hv] at h
    simp at h
  | some lines =>
    rw [hv] at h
    cases hix : ri (l ++ ".index") with
    | none =>
      rw [hix] at h
      simp at h
    | some recon =>
      rw [hix] at h
      rw [scanRecords_ok_length recon lines l ds vs h]
      congr 1
      apply List.filter_congr
      intro d hd
      simp [hitB, hv]

/-- The length of a successful constructor target list is the sum over the
scanned languages of each language's hit count. -/
theorem buildTargetsAux_ok_length (rv : String → Option (List String))
    (ri : String → Option (Nat → Vec)) (ds : List RawRecord) :
    ∀ (ls : List String) (ts : List Vec),
      buildTargetsAux rv ri ds ls = Except.ok ts →
      ts.length = (ls.map (fun l => (ds.filter (hitB rv l)).length)).sum := by
  intro ls
  induction ls with
  | nil =>
    intro ts h
    simp only [buildTargetsAux] at h
    injection h with h2
    subst h2
    rfl
  | cons l ls ih =>
    intro ts h
    unfold buildTargetsAux at h
    cases hsl : scanLang rv ri ds l with
    | error e =>
      rw [hsl] at h
      simp at h
    | ok vs =>
      rw [hsl] at h
      cases hrest : buildTargetsAux rv ri ds ls with
      | error e =>
        rw [hrest] at h
        simp [Except.map] at h
      | ok rest =>
        rw [hrest] at h
        simp only [Except.map] at h
        injection h with h2
        subst h2
        simp [List.length_append, scanLang_ok_length rv ri ds l vs hsl, ih rest hrest]

/-- Filtering through a cons adds one exactly when the head passes. -/
theorem length_filter_cons_eq {α : Type} (p : α → Bool) (a : α) (l : List α) :
    ((a :: l).filter p).length = (if p a then 1 else 0) + (l.filter p).length := by
  by_cases h : p a
  · rw [List.filter_cons_of_pos h, if_pos h]
    simp [List.length_cons]
    omega
  · rw [List.filter_cons_of_neg h, if_neg h]
    simp

/-- Sums of pointwise additions split. -/
theorem sum_map_add_distrib {α : Type} (l : List α) (f g : α → Nat) :
    (l.map (fun a => f a + g a)).sum = (l.map f).sum + (l.map g).sum := by
  induction l with
  | nil => rfl
  | cons a l ih =>
    simp [ih]
    omega

/-- Summing an indicator counts the filtered elements. -/
theorem sum_map_ite_one {α : Type} (l : List α) (q : α → Bool) :
    (l.map (fun a => if q a then 1 else 0)).sum = (l.filter q).length := by
  induction l with
  | nil => rfl
  | cons a l ih =>
    by_cases h : q a
    · simp [h, List.filter_cons_of_pos h, ih]
      omega
    · simp [h, List.filter_cons_of_neg h, ih]

/-- The double count of a relation can be summed in either order. -/
theorem sum_filter_exchange {α β : Type} (p : α → β → Bool) :
    ∀ (ds : List β) (ls : List α),
      (ls.map (fun l => (ds.filter (p l)).length)).sum =
        (ds.map (fun d => (ls.filter (fun l => p l d)).length)).sum := by
  intro ds
  induction ds with
  | nil =>
    intro ls
    simp only [List.filter_nil, List.length_nil, List.map_nil, List.sum_nil]
    induction ls with
    | nil => rfl
    | cons a ls ih => simpa using ih
  | cons d ds ih =>
    intro ls
    simp only [length_filter_cons_eq]
    rw [sum_map_add_distrib ls (fun l => if p l d then 1 else 0)
      (fun l => ((ds.filter (p l)).length)), sum_map_ite_one, ih ls]
    simp [List.map_cons, List.sum_cons]

/-- A nodup list holds at most one element satisfying a predicate that
pins its witnesses to a single value. -/
theorem filter_length_le_one {α : Type} [DecidableEq α] :
    ∀ (ls : List α), ls.Nodup → ∀ (q : α → Bool) (c : α), (∀ l, q l = true → l = c) →
      (ls.filter q).length ≤ 1 := by
  intro ls
  induction ls with
  | nil =>
    intro _ q c _
    simp
  | cons a ls ih =>
    intro hnd q c hq
    rw [List.nodup_cons] at hnd
    by_cases ha : q a
    · rw [List.filter_cons_of_pos ha]
      have hac : a = c := hq a ha
      have hnil : ls.filter q = [] := by
        rw [List.filter_eq_nil_iff]
        intro x hx hqx
        have hcls : c ∈ ls := by
          rw [← hq x hqx]
          exact hx
        have hals : a ∈ ls := by
          rw [hac]
          exact hcls
        exact hnd.1 hals
      rw [hnil]
      simp
    · rw [List.filter_cons_of_neg ha]
      exact ih hnd.2 q c hq

/-- A predicate false on every element filters to the empty list. -/
theorem filter_length_eq_zero_of_none {α : Type} (ls : List α) (q : α → Bool)
    (h : ∀ l ∈ ls, q l = false) : (ls.filter q).length = 0 := by
  have hnil : ls.filter q = [] := by
    rw [List.filter_eq_nil_iff]
    intro a ha
    simp [h a ha]
  rw [hnil]
  rfl

/-- A sum of values bounded by one is bounded by the length. -/
theorem sum_map_le_length {β : Type} (ds : List β) (f : β → Nat)
    (h : ∀ d ∈ ds, f d ≤ 1) : (ds.map f).sum ≤ ds.length := by
  induction ds with
  | nil => simp
  | cons d ds ih =>
    simp only [List.map_cons, List.sum_cons, List.length_cons]
    have hd := h d (List.mem_cons_self d ds)
    have ht := ih (fun x hx => h x (List.mem_cons_of_mem d hx))
    omega

/-- A sum of values bounded by one, with one member contributing zero, is
strictly below the length. -/
theorem sum_map_lt_length {β : Type} (f : β → Nat) (d0 : β) :
    ∀ (ds : List β), (∀ d ∈ ds, f d ≤ 1) → d0 ∈ ds → f d0 = 0 →
      (ds.map f).sum < ds.length := by
  intro ds
  induction ds with
  | nil =>
    intro _ hd0 _
    simp at hd0
  | cons d ds ih =>
    intro h hd0 h0
    simp only [List.map_cons, List.sum_cons, List.length_cons]
    rcases List.mem_cons.mp hd0 with rfl | hmem
    · have ht := sum_map_le_length ds f (fun x hx => h x (List.mem_cons_of_mem _ hx))
      omega
    · have hd := h d (List.mem_cons_self d ds)
      have ht := ih (fun x hx => h x (List.mem_cons_of_mem d hx)) hmem h0
      omega

/-- A record only hits the scan of its own `Target_ID` language. -/
theorem hitB_true_lang (rv : String → Option (List String)) (d : RawRecord)
    (l : String) (h : hitB rv l d = true) : l = d.Target_ID := by
  unfold hitB at h
  cases hv : rv (l ++ ".vocab") with
  | none =>
    rw [hv] at h
    simp at h
  | some lines =>
    rw [hv] at h
    simp only [Bool.and_eq_true, decide_eq_true_eq] at h
    exact (lookup_lang_map_eq d.Target_ID l h.1).1

/-- Claim C9: when construction succeeds but at least one record's keyword
is unresolvable, `self.targets` is strictly shorter than the dataset,
`__len__` still reports the full record count, and `__getitem__` raises an
out-of-range `IndexError` on every index from `len(self.targets)` up to
`len(self.dataset) - 1`. -/
theorem targets_shorter_and_getitem_index_error {φ : Type} (tok : String → φ)
    (rv : String → Option (List String)) (ri : String → Option (Nat → Vec))
    (ds : List RawRecord) (ts : List Vec) (idx : Nat)
    (hok : buildTargets rv ri ds = Except.ok ts)
    (hmiss : ∃ d ∈ ds, unresolvedKw rv d = true)
    (h1 : ts.length ≤ idx) (h2 : idx < ds.length) :
    ts.length < ds.length ∧
    datasetLen ds = ds.length ∧
    getitem tok ds ts idx = Except.error "IndexError: list index out of range" := by
  obtain ⟨d0, hd0, hun⟩ := hmiss
  have hcount : ts.length =
      (ds.map (fun d => (supportedLangs.filter (fun l => hitB rv l d)).length)).sum := by
    have hb := buildTargetsAux_ok_length rv ri ds supportedLangs ts hok
    rw [hb]
    exact sum_filter_exchange (hitB rv) ds supportedLangs
  have hle : ∀ d ∈ ds, (supportedLangs.filter (fun l => hitB rv l d)).length ≤ 1 := by
    intro d hd
    exact filter_length_le_one supportedLangs (by decide) _ d.Target_ID
      (fun l hl => hitB_true_lang rv d l hl)
  have h0 : (supportedLangs.filter (fun l => hitB rv l d0)).length = 0 := by
    apply filter_length_eq_zero_of_none
    intro l hl
    cases hb : hitB rv l d0
    · rfl
    · exfalso
      have hlid : l = d0.Target_ID := hitB_true_lang rv d0 l hb
      subst hlid
      unfold hitB at hb
      unfold unresolvedKw at hun
      cases hv : rv (d0.Target_ID ++ ".vocab") with
      | none =>
        rw [hv] at hun
        simp at hun
      | some lines =>
        rw [hv] at hb
        rw [hv] at hun
        rw [Option.isNone_iff_eq_none] at hun
        simp [hun] at hb
  have hlt : ts.length < ds.length := by
    rw [hcount]
    exact sum_map_lt_length _ d0 ds hle hd0 h0
  refine ⟨hlt, rfl, ?_⟩
  simp only [getitem]
  rw [List.getElem?_eq_getElem h2]
  rw [List.getElem?_eq_none h1]

/-- Exercises claim C9's theorem on the concrete missing-keyword dataset:
targets has one entry, the dataset two records, and index 1 raises. -/
theorem targets_shorter_and_getitem_index_error_witness :
    ([[10]] : List Vec).length < dsC2.length ∧
    datasetLen dsC2 = dsC2.length ∧
    getitem (fun _ => ()) dsC2 [[10]] 1 = Except.error "IndexError: list index out of range" :=
  targets_shorter_and_getitem_index_error (fun _ => ()) rvC2 riC2 dsC2 [[10]] 1
    rfl (by decide) (by decide) (by decide)

/-- Every supported tag looks itself up in the rebuilt `lang_map`. -/
theorem lookup_lang_map_self : ∀ t ∈ supportedLangs, List.lookup t lang_map = some t := by
  decide

/-- A per-language scan consults the filesystem only at that language's
`.vocab` and `.index` filenames. -/
theorem scanLang_congr (rv rv' : String → Option (List String))
    (ri ri' : String → Option (Nat → Vec)) (ds : List RawRecord) (l : String)
    (h1 : rv (l ++ ".vocab") = rv' (l ++ ".vocab"))
    (h2 : ri (l ++ ".index") = ri' (l ++ ".index")) :
    scanLang rv ri ds l = scanLang rv' ri' ds l := by
  unfold scanLang
  rw [h1, h2]

/-- The constructor loop consults the filesystem only at the scanned
languages' `.vocab` and `.index` filenames. -/
theorem buildTargetsAux_congr (rv rv' : String → Option (List String))
    (ri ri' : String → Option (Nat → Vec)) (ds : List RawRecord) :
    ∀ ls : List String,
      (∀ l ∈ ls, rv (l ++ ".vocab") = rv' (l ++ ".vocab") ∧
        ri (l ++ ".index") = ri' (l ++ ".index")) →
      buildTargetsAux rv ri ds ls = buildTargetsAux rv' ri' ds ls := by
  intro ls
  induction ls with
  | nil =>
    intro _
    rfl
  | cons l ls ih =>
    intro h
    unfold buildTargetsAux
    rw [scanLang_congr rv rv' ri ri' ds l (h l (List.mem_cons_self l ls)).1
      (h l (List.mem_cons_self l ls)).2]
    rw [ih (fun x hx => h x (List.mem_cons_of_mem l hx))]

/-- Claim C10: the language mapping is the identity on the raw tags (the
uppercase tag itself, never the lowercase human-readable code), every
item's `source_lang`/`target_lang` equals the record's raw
`Source_ID`/`Target_ID` unchanged, and the constructor opens the
per-language files only under the raw-tag filenames `<TAG>.vocab` and
`<TAG>.index`. -/
theorem lang_map_identity_and_raw_tag_files {φ : Type} (t : String)
    (ht : t ∈ supportedLangs) (tok : String → φ) (ds : List RawRecord)
    (ts : List Vec) (idx : Nat) (d : RawRecord) (it : Item φ)
    (hd : ds[idx]? = some d) (hit : getitem tok ds ts idx = Except.ok it)
    (rv rv' : String → Option (List String)) (ri ri' : String → Option (Nat → Vec))
    (ds2 : List RawRecord)
    (hagree : ∀ l ∈ supportedLangs, rv (l ++ ".vocab") = rv' (l ++ ".vocab") ∧
      ri (l ++ ".index") = ri' (l ++ ".index")) :
    List.lookup t lang_map = some t ∧
    it.source_lang = d.Source_ID ∧
    it.target_lang = d.Target_ID ∧
    buildTargets rv ri ds2 = buildTargets rv' ri' ds2 := by
  have hpair : it.source_lang = d.Source_ID ∧ it.target_lang = d.Target_ID := by
    simp only [getitem] at hit
    split at hit
    · simp at hit
    · rename_i d2 hd2
      rw [hd] at hd2
      injection hd2 with hdd
      subst hdd
      split at hit
      · simp at hit
      · rename_i tvec htv
        split at hit
        · simp at hit
        · rename_i sl hsl
          split at hit
          · simp at hit
          · rename_i tl htl
            injection hit with h3
            subst h3
            exact ⟨(lookup_lang_map_eq _ _ hsl).1, (lookup_lang_map_eq _ _ htl).1⟩
  exact ⟨lookup_lang_map_self t ht, hpair.1, hpair.2,
    buildTargetsAux_congr rv rv' ri ri' ds2 supportedLangs hagree⟩

/-- Exercises claim C10's theorem on a concrete record, item, and pair of
agreeing filesystems. -/
theorem lang_map_identity_and_raw_tag_files_witness :
    List.lookup "HI" lang_map = some "HI" ∧
    itW.source_lang = rC10.Source_ID ∧
    itW.target_lang = rC10.Target_ID ∧
    buildTargets (fun _ => none) (fun _ => none) [] =
      buildTargets (fun _ => none) (fun _ => none) [] :=
  lang_map_identity_and_raw_tag_files "HI" (by decide) (fun _ => ()) [rC10]
    [[0]] 0 rC10 itW rfl rfl (fun _ => none) (fun _ => none)
    (fun _ => none) (fun _ => none) [] (fun l _ => ⟨rfl, rfl⟩)

/-- Claim C1 (failing-input evaluation): on a dataset whose two records
have different target languages and fully resolving keywords, the
constructor's per-language pre-scan puts record 1's vector first, so
`__getitem__(0)` returns record 1's vector `[10]` while record 0's own
keyword reconstructs to `[20]` — record-to-target correspondence is not
positional. -/
theorem xling_targets_cross_language_misalignment :
    word2idx ["a"] "a" = some 0 ∧
    word2idx ["b"] "b" = some 0 ∧
    buildTargets rvC1 riC1 dsC1 = Except.ok [[10], [20]] ∧
    (getitem (fun _ => ()) dsC1 [[10], [20]] 0).map (fun it => it.target) =
      Except.ok [10] ∧
    (riC1 "BE.index").map (fun recon => recon 0) = some [20] :=
  ⟨rfl, rfl, rfl, rfl, rfl⟩

/-- Claim C2 (failing-input evaluation): when record 0's keyword is absent
from its vocabulary, the constructor prints and skips it, shifting the
target list; `__getitem__(0)` then silently returns `[10]` — exactly
record 1's keyword's vector — as the target of record 0. -/
theorem xling_missing_keyword_shifts_alignment :
    word2idx ["a"] "zzz" = none ∧
    word2idx ["a"] "a" = some 0 ∧
    buildTargets rvC2 riC2 dsC2 = Except.ok [[10]] ∧
    (getitem (fun _ => ()) dsC2 [[10]] 0).map (fun it => (it.target, it.target_word)) =
      Except.ok ([10], "zzz") ∧
    (riC2 "HI.index").map (fun recon => recon 0) = some [10] :=
  ⟨rfl, rfl, rfl, rfl, rfl⟩
